import Mathlib

/-!
Shallow embedding of `ryu/services/protocols/bgp/application.py`, the
configuration-orchestration layer of the ryu BGP speaker, together with
theorems settling the specification claims about it.

Python dictionaries whose values are configuration scalars are embedded as
association lists; the three bulk lists (`neighbors`, `vrfs`, `routes`) are
lists of such dictionaries.  Exceptions are embedded as explicit error
values; observable side effects (engine mutation calls, log records, task
spawns) are embedded as an event trace.
-/

set_option autoImplicit false

/-- A scalar Python value as it appears in the settings dictionaries:
`None`, an integer, a string, or an integer pair (used for label ranges). -/
inductive PyScalar where
  | none
  | int (n : Int)
  | str (s : String)
  | pair (a b : Int)
  deriving DecidableEq, Repr

/-- A neighbor/VRF/route spec: an opaque mapping of named scalar fields
(`dict` in the source), embedded as an association list. -/
abbrev SDict := List (String × PyScalar)

/-- A value stored in a BGP-section dictionary: either a scalar setting or a
list of spec dictionaries (the `neighbors`, `vrfs` and `routes` entries). -/
inductive PyVal where
  | scalar (v : PyScalar)
  | dlist (ds : List SDict)
  deriving DecidableEq, Repr

/-- A settings-section dictionary (`settings` in `_start_speaker`),
embedded as an association list from keys to values. -/
abbrev Dict := List (String × PyVal)

/-- First binding of a key in a dictionary, `d[k]` as a partial lookup.
Python dict keys are unique, so first-match lookup is faithful. -/
def dictFind (d : Dict) (k : String) : Option PyVal :=
  (d.find? (fun kv => kv.1 == k)).map (fun kv => kv.2)

/-- Python `d.get(k)`: the value bound to `k`, or `None` when `k` is absent.
This method never raises `KeyError`. -/
def pyGet (d : Dict) (k : String) : PyVal :=
  (dictFind d k).getD (PyVal.scalar PyScalar.none)

/-- Python `d.get(k, default)`: the value bound to `k`, or `default` when
`k` is absent.  Never raises. -/
def pyGetD (d : Dict) (k : String) (default : PyVal) : PyVal :=
  (dictFind d k).getD default

/-- Python `k in d` for a spec dictionary. -/
def hasKey (d : SDict) (k : String) : Bool :=
  d.any (fun kv => kv.1 == k)

/-- Iterating over a settings value that is expected to be a list of spec
dictionaries.  A non-list value is outside the modelled inputs (iterating it
in Python would be a type error); it is embedded as the empty iteration. -/
def asDList : PyVal → List SDict
  | PyVal.dlist ds => ds
  | PyVal.scalar _ => []

/-- The Python exception classes visible in `application.py`:
`BGPSException` (from `base`), `ApplicationException` (declared here),
`RuntimeConfigError` (from `rtconf.base`), `KeyError`, and any other
exception type. -/
inductive ExcType where
  | bgpsException
  | applicationException
  | runtimeConfigError
  | keyError
  | otherException
  deriving DecidableEq, Repr

/-- The direct superclass of each exception class, as far as the source
file shows it: `class ApplicationException(BGPSException)`.  The parents of
the imported classes are not declared in this file. -/
def excSuper : ExcType → Option ExcType
  | ExcType.applicationException => some ExcType.bgpsException
  | _ => none

/-- `a` is `b` or a declared subclass of `b`. -/
def subclassOf (a b : ExcType) : Bool :=
  a == b || excSuper a == some b

/-- A raised Python exception: its class and its description string. -/
structure PyErr where
  etype : ExcType
  desc : String
  deriving DecidableEq, Repr

/-- Constructing an `ApplicationException` with the given description
(`raise ApplicationException(desc=...)`). -/
def appExc (desc : String) : PyErr :=
  { etype := ExcType.applicationException, desc := desc }

/-- Modelled from the spec: the BGP-section key for the required AS number
(`LOCAL_AS`, imported from `rtconf.common`, which is not part of the source
under examination; the spec names the field `as_number`). -/
def LOCAL_AS : String := "as_number"

/-- Modelled from the spec: the BGP-section key for the required router id
(`ROUTER_ID` from `rtconf.common`). -/
def ROUTER_ID : String := "router_id"

/-- Modelled from the spec: the key for the optional BGP server port
(`BGP_SERVER_PORT` from `rtconf.common`). -/
def BGP_SERVER_PORT : String := "server_port"

/-- Modelled from the spec: the key for the optional stale-path refresh
time (`REFRESH_STALEPATH_TIME` from `rtconf.common`). -/
def REFRESH_STALEPATH_TIME : String := "refresh_stalepath_time"

/-- Modelled from the spec: the key for the optional max end-of-RIB time
(`REFRESH_MAX_EOR_TIME` from `rtconf.common`). -/
def REFRESH_MAX_EOR_TIME : String := "refresh_max_eor_time"

/-- Modelled from the spec: the key for the optional label range
(`LABEL_RANGE` from `rtconf.common`). -/
def LABEL_RANGE : String := "label_range"

/-- Modelled from the spec: the named default for the BGP server port
(`DEFAULT_BGP_SERVER_PORT` from `rtconf.common`; the concrete value is
owned by that configuration module, 179 is the well-known BGP port used as
a stand-in). -/
def DEFAULT_BGP_SERVER_PORT : PyVal := PyVal.scalar (PyScalar.int 179)

/-- Modelled from the spec: the named default for the stale-path refresh
time (`DEFAULT_REFRESH_STALEPATH_TIME` from `rtconf.common`). -/
def DEFAULT_REFRESH_STALEPATH_TIME : PyVal := PyVal.scalar (PyScalar.int 0)

/-- Modelled from the spec: the named default for the max end-of-RIB time
(`DEFAULT_REFRESH_MAX_EOR_TIME` from `rtconf.common`). -/
def DEFAULT_REFRESH_MAX_EOR_TIME : PyVal := PyVal.scalar (PyScalar.int 0)

/-- Modelled from the spec: the named default label range (`DEFAULT_LABEL_RANGE`
from `rtconf.common`), an integer pair. -/
def DEFAULT_LABEL_RANGE : PyVal := PyVal.scalar (PyScalar.pair 100 100000)

/-- Splitting a character list at every occurrence of a separator; the
result always has one more group than there are separators. -/
def splitChar (sep : Char) : List Char → List (List Char)
  | [] => [[]]
  | x :: xs =>
    let r := splitChar sep xs
    if x = sep then [] :: r
    else
      match r with
      | [] => [[x]]
      | g :: gs => (x :: g) :: gs

/-- The numeric value of a list of decimal digit characters. -/
def digitsVal (l : List Char) : Nat :=
  l.foldl (fun n c => n * 10 + (c.toNat - 48)) 0

/-- A decimal octet of a dotted-quad IPv4 literal: one to three digits with
value at most 255. -/
def isValidOctet (l : List Char) : Bool :=
  decide (0 < l.length) && decide (l.length ≤ 3) &&
    l.all Char.isDigit && decide (digitsVal l ≤ 255)

/-- Modelled from the spec: `is_valid_ipv4` (imported from
`utils.validation`, not part of the source under examination) — the string
is a syntactically valid dotted-quad IPv4 literal. -/
def is_valid_ipv4 (s : String) : Bool :=
  let parts := splitChar '.' s.data
  parts.length == 4 && parts.all isValidOctet

/-- A hexadecimal digit character. -/
def isHexDigit (c : Char) : Bool :=
  c.isDigit || (decide ('a' ≤ c) && decide (c ≤ 'f')) ||
    (decide ('A' ≤ c) && decide (c ≤ 'F'))

/-- A group of one to four hexadecimal digits. -/
def isValidHexGroup (l : List Char) : Bool :=
  decide (0 < l.length) && decide (l.length ≤ 4) && l.all isHexDigit

/-- The number of adjacent colon pairs (`::` occurrences) in a character
list. -/
def doubleColons : List Char → Nat
  | [] => 0
  | [_] => 0
  | a :: b :: rest =>
    (if a = ':' ∧ b = ':' then 1 else 0) + doubleColons (b :: rest)

/-- Modelled from the spec: `is_valid_ipv6` (imported from
`utils.validation`, not part of the source under examination) — the string
is a syntactically valid IPv6 literal (colon-separated hexadecimal groups,
with at most one `::` run of empty groups). -/
def is_valid_ipv6 (s : String) : Bool :=
  let parts := splitChar ':' s.data
  decide (doubleColons s.data ≤ 1) &&
    decide (3 ≤ parts.length) && decide (parts.length ≤ 8) &&
    parts.all (fun p => p.isEmpty || isValidHexGroup p)

/-- `validate_rpc_host(ip)`: returns `ip` unchanged when it is a valid IPv4
or IPv6 literal, otherwise raises an `ApplicationException` naming the
offending value. -/
def validate_rpc_host (ip : String) : Except PyErr String :=
  if ¬ is_valid_ipv4 ip ∧ ¬ is_valid_ipv6 ip then
    Except.error (appExc ("Invalid RPC ip address: " ++ ip))
  else
    Except.ok ip

/-- The loaded configuration module (`bgpspeaker.application.settings`):
up to three optional sections.  `hasattr(settings, SECTION)` is section
presence; the `LOGGING` section is only tested for presence. -/
structure Settings where
  hasLOGGING : Bool
  BGP : Option Dict
  SSH : Option SDict
  deriving DecidableEq, Repr

/-- The environment `load_config` runs against: which paths name existing
files (`os.path.isfile`) and what loading a file as a module yields
(`load_source`, which either returns the module or raises with a message). -/
structure FileSystem where
  isfile : String → Bool
  resolve : String → Except String Settings

/-- `load_config(config_file)`: raises an `ApplicationException` when the
path is empty or names no existing file; otherwise resolves the file via
`load_source`, re-raising any failure as an `ApplicationException`
carrying the original message. -/
def load_config (fs : FileSystem) (config_file : String) : Except PyErr Settings :=
  if config_file = "" ∨ fs.isfile config_file = false then
    Except.error (appExc ("Invalid configuration file: " ++ config_file))
  else
    match fs.resolve config_file with
    | Except.ok s => Except.ok s
    | Except.error e => Except.error (appExc e)

/-- A mutation call issued against the external `BGPSpeaker` engine. -/
inductive EngCall where
  | neighbor_add (s : SDict)
  | vrf_add (s : SDict)
  | prefix_add (s : SDict)
  | evpn_prefix_add (s : SDict)
  deriving DecidableEq, Repr

/-- What the engine does on a given call: return normally or raise. -/
inductive EngOutcome where
  | ok
  | raise (e : PyErr)
  deriving DecidableEq, Repr

/-- The behaviour of the external engine: the outcome of each call. -/
abbrev Eng := EngCall → EngOutcome

/-- An observable event of the orchestration layer, in occurrence order:
a config load, the engine construction, an engine mutation call, a logged
per-item exception (`LOG.exception`), a debug-level skip of an invalid
route, and the two task spawns. -/
inductive Event where
  | loadConfigEv (path : String)
  | constructSpeaker (bgp_settings : Dict)
  | engCall (c : EngCall)
  | logException (msg : String)
  | debugSkip (route : SDict)
  | spawnSSH (cfg : SDict)
  | spawnNetController (bind_ip : String) (bind_port : Int)
  deriving DecidableEq, Repr

/-- A trace of observable events. -/
abbrev Trace := List Event

/-- One guarded engine call, `try: call(**s) except RuntimeConfigError as e:
LOG.exception(e)`: on success or on a caught `RuntimeConfigError` the loop
continues with `rest`; any other exception aborts the loop and propagates. -/
def tryAdd (eng : Eng) (c : EngCall) (rest : Trace × Option PyErr) : Trace × Option PyErr :=
  match eng c with
  | EngOutcome.ok => (Event.engCall c :: rest.1, rest.2)
  | EngOutcome.raise ex =>
    if ex.etype == ExcType.runtimeConfigError then
      (Event.engCall c :: Event.logException ex.desc :: rest.1, rest.2)
    else
      ([Event.engCall c], some ex)

/-- `_add_neighbors(settings)`: each neighbor spec in order via
`self.speaker.neighbor_add(**neighbor_settings)` under the per-item guard. -/
def addNeighborsLoop (eng : Eng) : List SDict → Trace × Option PyErr
  | [] => ([], none)
  | n :: rest => tryAdd eng (EngCall.neighbor_add n) (addNeighborsLoop eng rest)

/-- `_add_vrfs(settings)`: each VRF spec in order via
`self.speaker.vrf_add(**vrf_settings)` under the per-item guard. -/
def addVrfsLoop (eng : Eng) : List SDict → Trace × Option PyErr
  | [] => ([], none)
  | v :: rest => tryAdd eng (EngCall.vrf_add v) (addVrfsLoop eng rest)

/-- `_add_routes(settings)`: each route spec is classified — a `prefix` key
selects `speaker.prefix_add`, else a `route_type` key selects
`speaker.evpn_prefix_add`, else the entry is skipped with a debug log —
and applied under the same per-item guard. -/
def addRoutesLoop (eng : Eng) : List SDict → Trace × Option PyErr
  | [] => ([], none)
  | r :: rest =>
    if hasKey r "prefix" then
      tryAdd eng (EngCall.prefix_add r) (addRoutesLoop eng rest)
    else if hasKey r "route_type" then
      tryAdd eng (EngCall.evpn_prefix_add r) (addRoutesLoop eng rest)
    else
      ((Event.debugSkip r) :: (addRoutesLoop eng rest).1, (addRoutesLoop eng rest).2)

/-- The `bgp_settings` dictionary built by `_start_speaker` and passed to
`BGPSpeaker(**bgp_settings)`.  The required fields are read with
`settings.get(...)`, which returns `None` for an absent key and never
raises `KeyError`, so the `except KeyError` arm at lines 148-150 of the
source is unreachable; the optional fields are read with two-argument
`settings.get(key, default)`. -/
def bgpSettingsOf (settings : Dict) : Dict :=
  [("as_number", pyGet settings LOCAL_AS),
   ("router_id", pyGet settings ROUTER_ID),
   (BGP_SERVER_PORT, pyGetD settings BGP_SERVER_PORT DEFAULT_BGP_SERVER_PORT),
   (REFRESH_STALEPATH_TIME,
     pyGetD settings REFRESH_STALEPATH_TIME DEFAULT_REFRESH_STALEPATH_TIME),
   (REFRESH_MAX_EOR_TIME,
     pyGetD settings REFRESH_MAX_EOR_TIME DEFAULT_REFRESH_MAX_EOR_TIME),
   (LABEL_RANGE, pyGetD settings LABEL_RANGE DEFAULT_LABEL_RANGE)]

/-- The raise expression at lines 148-150 of the source
(`raise ApplicationException(desc='Required BGP configuration missing: ...')`).
It is dead code: its guard, `except KeyError`, can never fire because
`dict.get` does not raise. -/
def bootstrapMissingFieldError (e : String) : PyErr :=
  appExc ("Required BGP configuration missing: " ++ e)

/-- `_start_speaker(settings)`: build `bgp_settings`, construct the engine
with it, then bulk-apply neighbors, VRFs and routes in that order, each
list read with `settings.get(key, [])`.  An uncaught exception from a list
aborts the remaining lists and propagates.  Returns the event trace, the
settings the engine was constructed with, and the propagated exception if
any. -/
def startSpeaker (eng : Eng) (settings : Dict) : Trace × Dict × Option PyErr :=
  let bgp_settings := bgpSettingsOf settings
  let rn := addNeighborsLoop eng (asDList (pyGetD settings "neighbors" (PyVal.dlist [])))
  match rn.2 with
  | some err => (Event.constructSpeaker bgp_settings :: rn.1, bgp_settings, some err)
  | none =>
    let rv := addVrfsLoop eng (asDList (pyGetD settings "vrfs" (PyVal.dlist [])))
    match rv.2 with
    | some err =>
      (Event.constructSpeaker bgp_settings :: (rn.1 ++ rv.1), bgp_settings, some err)
    | none =>
      let rr := addRoutesLoop eng (asDList (pyGetD settings "routes" (PyVal.dlist [])))
      (Event.constructSpeaker bgp_settings :: (rn.1 ++ rv.1 ++ rr.1), bgp_settings, rr.2)

/-- The process-wide configuration consumed by the application
(`CONF['bgp-app']`): `config_file` (empty string models an unset value,
both are falsy in the source's `if self.config_file:` test), `rpc_port`
and `rpc_host`. -/
structure Conf where
  config_file : String
  rpc_port : Int
  rpc_host : String
  deriving DecidableEq, Repr

/-- The handle returned by `hub.spawn(NET_CONTROLLER.start, **rpc_settings)`. -/
inductive TaskHandle where
  | netController (bind_ip : String) (bind_port : Int)
  deriving DecidableEq, Repr

/-- The BGP step of `start`: `_start_speaker(settings.BGP)` when the BGP
section is present, nothing otherwise.  Yields the step's trace and its
propagated exception if any. -/
def bgpStep (eng : Eng) : Option Dict → Trace × Option PyErr
  | some bgp => ((startSpeaker eng bgp).1, (startSpeaker eng bgp).2.2)
  | none => ([], none)

/-- The SSH step of `start`: `hub.spawn(ssh.SSH_CLI_CONTROLLER.start,
**settings.SSH)` when the SSH section is present. -/
def sshStep : Option SDict → Trace
  | some cfg => [Event.spawnSSH cfg]
  | none => []

/-- The control-channel launch at the end of `start`: build `rpc_settings`
(validating `CONF.rpc_host`) and `hub.spawn(NET_CONTROLLER.start, ...)`.
A `validate_rpc_host` failure propagates and the spawn does not happen. -/
def rpcSpawn (conf : Conf) : Trace × Except PyErr TaskHandle :=
  match validate_rpc_host conf.rpc_host with
  | Except.error e => ([], Except.error e)
  | Except.ok ip =>
    ([Event.spawnNetController ip conf.rpc_port],
     Except.ok (TaskHandle.netController ip conf.rpc_port))

/-- `RyuBGPSpeaker.start`: when `config_file` is truthy, load it (a load
failure propagates); then, section by section, run the BGP step (an
exception from it propagates, skipping the rest), the SSH step, and
finally the control-channel launch, whose task handle is returned.
Returns the performed-event trace together with the outcome. -/
def appStart (fs : FileSystem) (eng : Eng) (conf : Conf) : Trace × Except PyErr TaskHandle :=
  if conf.config_file = "" then
    rpcSpawn conf
  else
    match load_config fs conf.config_file with
    | Except.error e => ([Event.loadConfigEv conf.config_file], Except.error e)
    | Except.ok settings =>
      match bgpStep eng settings.BGP with
      | (tb, some err) => (Event.loadConfigEv conf.config_file :: tb, Except.error err)
      | (tb, none) =>
        (Event.loadConfigEv conf.config_file ::
           (tb ++ sshStep settings.SSH ++ (rpcSpawn conf).1),
         (rpcSpawn conf).2)

/-- The engine mutation calls attempted in a trace, in order. -/
def attempted (t : Trace) : List EngCall :=
  t.filterMap (fun e =>
    match e with
    | Event.engCall c => some c
    | _ => none)

/-- The per-item exception messages logged in a trace, in order. -/
def loggedEx (t : Trace) : List String :=
  t.filterMap (fun e =>
    match e with
    | Event.logException m => some m
    | _ => none)

/-- The route specs skipped with a debug log in a trace, in order. -/
def skippedRoutes (t : Trace) : List SDict :=
  t.filterMap (fun e =>
    match e with
    | Event.debugSkip r => some r
    | _ => none)

/-- The call a route spec is classified to: `prefix_add` when it has a
`prefix` key, else `evpn_prefix_add` when it has a `route_type` key, else
none (the spec is invalid and skipped). -/
def routeCall (r : SDict) : Option EngCall :=
  if hasKey r "prefix" then some (EngCall.prefix_add r)
  else if hasKey r "route_type" then some (EngCall.evpn_prefix_add r)
  else none

/-- The per-item guard handles the call: the engine returns normally or
raises a `RuntimeConfigError` (which the loop catches and logs). -/
def handled (eng : Eng) (c : EngCall) : Bool :=
  match eng c with
  | EngOutcome.ok => true
  | EngOutcome.raise ex => ex.etype == ExcType.runtimeConfigError

/-- The exception messages the guard logs for a sequence of calls that are
all handled: one per call the engine answers with `RuntimeConfigError`. -/
def expectedLogs (eng : Eng) (cs : List EngCall) : List String :=
  cs.filterMap (fun c =>
    match eng c with
    | EngOutcome.ok => none
    | EngOutcome.raise ex =>
      if ex.etype == ExcType.runtimeConfigError then some ex.desc else none)

/-- The three bulk lists applied during bootstrap. -/
inductive ListKind where
  | neighbors
  | vrfs
  | routes
  deriving DecidableEq, Repr

/-- The engine call (if any) one element of each bulk list is applied
through: neighbors via `neighbor_add`, VRFs via `vrf_add`, routes per
`routeCall`. -/
def callOf : ListKind → SDict → Option EngCall
  | ListKind.neighbors, s => some (EngCall.neighbor_add s)
  | ListKind.vrfs, s => some (EngCall.vrf_add s)
  | ListKind.routes, s => routeCall s

/-- The bulk-apply loop of each list kind. -/
def loopOf : ListKind → Eng → List SDict → Trace × Option PyErr
  | ListKind.neighbors => addNeighborsLoop
  | ListKind.vrfs => addVrfsLoop
  | ListKind.routes => addRoutesLoop

/-- The common shape of the three bulk-apply loops: classify each element
to its call (skipping, with a debug log, elements that classify to none)
and run it under the per-item guard. -/
def applyListLoop (eng : Eng) (f : SDict → Option EngCall) : List SDict → Trace × Option PyErr
  | [] => ([], none)
  | x :: rest =>
    match f x with
    | some c => tryAdd eng c (applyListLoop eng f rest)
    | none =>
      (Event.debugSkip x :: (applyListLoop eng f rest).1, (applyListLoop eng f rest).2)

/-- Whether an event is the control-channel launch
(`hub.spawn(NET_CONTROLLER.start, **rpc_settings)`). -/
def isSpawnNet : Event → Bool
  | Event.spawnNetController _ _ => true
  | _ => false

/-- How many control-channel launches a trace performs. -/
def countNet (t : Trace) : Nat :=
  t.countP (fun e => isSpawnNet e)

/-- Decidable form of the per-element guard condition: the element either
classifies to no call, or to a call the guard handles. -/
def elementHandled (eng : Eng) (k : ListKind) (x : SDict) : Bool :=
  match callOf k x with
  | some c => handled eng c
  | none => true

/-- An engine that accepts every call. -/
def engOk : Eng := fun _ => EngOutcome.ok

/-- A test engine: rejects neighbors carrying a `bad` key with a
`RuntimeConfigError`, fails every EVPN prefix call with an engine-internal
(non-configuration) exception, and accepts everything else. -/
def engW : Eng
  | EngCall.neighbor_add n =>
    if hasKey n "bad" then
      EngOutcome.raise { etype := ExcType.runtimeConfigError, desc := "bad neighbor" }
    else EngOutcome.ok
  | EngCall.vrf_add _ => EngOutcome.ok
  | EngCall.prefix_add _ => EngOutcome.ok
  | EngCall.evpn_prefix_add _ =>
    EngOutcome.raise { etype := ExcType.otherException, desc := "engine defect" }

/-- A test engine whose `neighbor_add` raises an `ApplicationException`
(a non-`RuntimeConfigError`, so the per-item guard does not catch it). -/
def engBoom : Eng
  | EngCall.neighbor_add _ => EngOutcome.raise (appExc "neighbor_add engine failure")
  | _ => EngOutcome.ok

/-- Test neighbor list: valid, malformed (rejected by `engW`), valid. -/
def nsW : List SDict :=
  [[("ip", PyScalar.str "192.0.2.10")],
   [("bad", PyScalar.int 1)],
   [("ip", PyScalar.str "192.0.2.11")]]

/-- Test route spec carrying a `prefix` key. -/
def rW1 : SDict := [("prefix", PyScalar.str "10.0.0.0/24")]

/-- Test route spec carrying a `route_type` key. -/
def rW2 : SDict := [("route_type", PyScalar.str "evpn")]

/-- Test route spec carrying neither classification key. -/
def rW3 : SDict := []

/-- A settings module with a BGP section and no SSH section. -/
def settingsW : Settings :=
  { hasLOGGING := false,
    BGP := some [(LOCAL_AS, PyVal.scalar (PyScalar.int 64512)),
                 (ROUTER_ID, PyVal.scalar (PyScalar.str "10.0.0.1"))],
    SSH := none }

/-- A file system with one loadable configuration file. -/
def fsW : FileSystem :=
  { isfile := fun p => p == "/etc/ryu/bgp_conf.py",
    resolve := fun p =>
      if p == "/etc/ryu/bgp_conf.py" then Except.ok settingsW
      else Except.error "not found" }

/-- A file system where the configuration file exists but cannot be
resolved (e.g. malformed content). -/
def fsBadW : FileSystem :=
  { isfile := fun p => p == "/etc/ryu/broken.py",
    resolve := fun _ => Except.error "invalid syntax (broken.py, line 3)" }

/-- A BGP section with both required fields and one neighbor. -/
def bgpCex : Dict :=
  [(LOCAL_AS, PyVal.scalar (PyScalar.int 64512)),
   (ROUTER_ID, PyVal.scalar (PyScalar.str "10.0.0.1")),
   ("neighbors", PyVal.dlist [[("ip", PyScalar.str "192.0.2.2")]])]

/-- A settings module whose BGP section is `bgpCex`. -/
def settingsCex : Settings :=
  { hasLOGGING := false, BGP := some bgpCex, SSH := none }

/-- A file system resolving the test path to `settingsCex`. -/
def fsCex : FileSystem :=
  { isfile := fun p => p == "/etc/ryu/bgp_conf.py",
    resolve := fun p =>
      if p == "/etc/ryu/bgp_conf.py" then Except.ok settingsCex
      else Except.error "not found" }

/-- A process configuration naming the test config file and a valid RPC
bind address. -/
def confCex : Conf :=
  { config_file := "/etc/ryu/bgp_conf.py", rpc_port := 50002, rpc_host := "0.0.0.0" }

/-- A settings module with neither a BGP nor an SSH section. -/
def settingsEmptyW : Settings :=
  { hasLOGGING := false, BGP := none, SSH := none }

/-- A file system resolving the test path to the empty settings module. -/
def fsEmptyW : FileSystem :=
  { isfile := fun p => p == "/etc/ryu/empty_conf.py",
    resolve := fun p =>
      if p == "/etc/ryu/empty_conf.py" then Except.ok settingsEmptyW
      else Except.error "not found" }

/-- A process configuration naming the empty-module config file. -/
def confEmptyW : Conf :=
  { config_file := "/etc/ryu/empty_conf.py", rpc_port := 50002,
    rpc_host := "127.0.0.1" }

/-- A BGP section where all four optional settings are present. -/
def s8a : Dict :=
  [(LOCAL_AS, PyVal.scalar (PyScalar.int 64512)),
   (ROUTER_ID, PyVal.scalar (PyScalar.str "10.0.0.1")),
   (BGP_SERVER_PORT, PyVal.scalar (PyScalar.int 1790)),
   (REFRESH_STALEPATH_TIME, PyVal.scalar (PyScalar.int 10)),
   (REFRESH_MAX_EOR_TIME, PyVal.scalar (PyScalar.int 20)),
   (LABEL_RANGE, PyVal.scalar (PyScalar.pair 500 1000))]

/-- A BGP section where all four optional settings are absent. -/
def s8b : Dict :=
  [(LOCAL_AS, PyVal.scalar (PyScalar.int 64512)),
   (ROUTER_ID, PyVal.scalar (PyScalar.str "10.0.0.1"))]

/-- A BGP section with an extra, non-constructor field. -/
def s10 : Dict :=
  [(LOCAL_AS, PyVal.scalar (PyScalar.int 64512)),
   (ROUTER_ID, PyVal.scalar (PyScalar.str "10.0.0.1"))]

theorem addNeighborsLoop_eq (eng : Eng) (l : List SDict) :
    addNeighborsLoop eng l = applyListLoop eng (callOf ListKind.neighbors) l := by
  induction l with
  | nil => rfl
  | cons n rest ih => simp [addNeighborsLoop, applyListLoop, callOf, ih]

theorem addVrfsLoop_eq (eng : Eng) (l : List SDict) :
    addVrfsLoop eng l = applyListLoop eng (callOf ListKind.vrfs) l := by
  induction l with
  | nil => rfl
  | cons v rest ih => simp [addVrfsLoop, applyListLoop, callOf, ih]

theorem addRoutesLoop_eq (eng : Eng) (l : List SDict) :
    addRoutesLoop eng l = applyListLoop eng (callOf ListKind.routes) l := by
  induction l with
  | nil => rfl
  | cons r rest ih =>
    by_cases hp : hasKey r "prefix"
    · simp [addRoutesLoop, applyListLoop, callOf, routeCall, hp, ih]
    · by_cases ht : hasKey r "route_type"
      · simp [addRoutesLoop, applyListLoop, callOf, routeCall, hp, ht, ih]
      · simp [addRoutesLoop, applyListLoop, callOf, routeCall, hp, ht, ih]

theorem loopOf_eq (k : ListKind) (eng : Eng) (l : List SDict) :
    loopOf k eng l = applyListLoop eng (callOf k) l := by
  cases k with
  | neighbors => exact addNeighborsLoop_eq eng l
  | vrfs => exact addVrfsLoop_eq eng l
  | routes => exact addRoutesLoop_eq eng l

theorem attempted_nil : attempted [] = [] := rfl

theorem attempted_cons_call (c : EngCall) (t : Trace) :
    attempted (Event.engCall c :: t) = c :: attempted t := rfl

theorem attempted_cons_log (m : String) (t : Trace) :
    attempted (Event.logException m :: t) = attempted t := rfl

theorem attempted_cons_skip (r : SDict) (t : Trace) :
    attempted (Event.debugSkip r :: t) = attempted t := rfl

theorem loggedEx_cons_call (c : EngCall) (t : Trace) :
    loggedEx (Event.engCall c :: t) = loggedEx t := rfl

theorem loggedEx_cons_log (m : String) (t : Trace) :
    loggedEx (Event.logException m :: t) = m :: loggedEx t := rfl

theorem loggedEx_cons_skip (r : SDict) (t : Trace) :
    loggedEx (Event.debugSkip r :: t) = loggedEx t := rfl

/-- When every element of the list classifies to a handled call, the loop
attempts exactly the classified calls in original order, logs exactly the
`RuntimeConfigError` descriptions, and propagates no exception. -/
theorem applyListLoop_all_handled (eng : Eng) (f : SDict → Option EngCall)
    (l : List SDict)
    (h : ∀ x ∈ l, ∀ c, f x = some c → handled eng c = true) :
    attempted (applyListLoop eng f l).1 = l.filterMap f
      ∧ loggedEx (applyListLoop eng f l).1 = expectedLogs eng (l.filterMap f)
      ∧ (applyListLoop eng f l).2 = none := by
  induction l with
  | nil => exact ⟨rfl, rfl, rfl⟩
  | cons x rest ih =>
    have hrest : ∀ y ∈ rest, ∀ c, f y = some c → handled eng c = true := by
      intro y hy c hc
      exact h y (List.mem_cons_of_mem x hy) c hc
    obtain ⟨iha, ihl, ihe⟩ := ih hrest
    cases hfx : f x with
    | none =>
      simp [applyListLoop, hfx, attempted_cons_skip, loggedEx_cons_skip,
        List.filterMap_cons, iha, ihl, ihe]
    | some c =>
      have hc : handled eng c = true := h x (List.mem_cons_self x rest) c hfx
      unfold handled at hc
      cases heng : eng c with
      | ok =>
        simp [applyListLoop, hfx, tryAdd, heng, attempted_cons_call,
          loggedEx_cons_call, List.filterMap_cons, iha, ihl, ihe,
          expectedLogs]
      | raise ex =>
        rw [heng] at hc
        simp only [beq_iff_eq] at hc
        simp [applyListLoop, hfx, tryAdd, heng, hc, attempted_cons_call,
          attempted_cons_log, loggedEx_cons_call, loggedEx_cons_log,
          List.filterMap_cons, iha, ihl, ihe, expectedLogs]

/-- When every element before `bad` classifies to a handled call, `bad`
classifies to a call the engine answers with an exception that is not a
`RuntimeConfigError`, that exception propagates: the attempted calls are
exactly the earlier ones followed by `bad`'s call, and the elements after
`bad` are not attempted. -/
theorem applyListLoop_abort (eng : Eng) (f : SDict → Option EngCall)
    (pre post : List SDict) (bad : SDict) (c : EngCall) (ex : PyErr)
    (hpre : ∀ x ∈ pre, ∀ c0, f x = some c0 → handled eng c0 = true)
    (hbad : f bad = some c)
    (heng : eng c = EngOutcome.raise ex)
    (hex : (ex.etype == ExcType.runtimeConfigError) = false) :
    attempted (applyListLoop eng f (pre ++ bad :: post)).1 = pre.filterMap f ++ [c]
      ∧ (applyListLoop eng f (pre ++ bad :: post)).2 = some ex := by
  induction pre with
  | nil =>
    simp [applyListLoop, hbad, tryAdd, heng, hex, attempted_cons_call,
      attempted_nil]
  | cons x rest ih =>
    have hx : ∀ c0, f x = some c0 → handled eng c0 = true := by
      intro c0 hc0
      exact hpre x (List.mem_cons_self x rest) c0 hc0
    have hrest : ∀ y ∈ rest, ∀ c0, f y = some c0 → handled eng c0 = true := by
      intro y hy c0 hc0
      exact hpre y (List.mem_cons_of_mem x hy) c0 hc0
    obtain ⟨iha, ihe⟩ := ih hrest
    cases hfx : f x with
    | none =>
      simp [applyListLoop, hfx, attempted_cons_skip, List.filterMap_cons, iha, ihe]
    | some c0 =>
      have hc0 : handled eng c0 = true := hx c0 hfx
      unfold handled at hc0
      cases heng0 : eng c0 with
      | ok =>
        simp [applyListLoop, hfx, tryAdd, heng0, attempted_cons_call,
          List.filterMap_cons, iha, ihe]
      | raise ex0 =>
        rw [heng0] at hc0
        simp only [beq_iff_eq] at hc0
        simp [applyListLoop, hfx, tryAdd, heng0, hc0, attempted_cons_call,
          attempted_cons_log, List.filterMap_cons, iha, ihe]

theorem dictFind_cons_eq (k : String) (v : PyVal) (d : Dict) :
    dictFind ((k, v) :: d) k = some v := by
  simp [dictFind, List.find?]

theorem dictFind_cons_ne (k k' : String) (v : PyVal) (d : Dict)
    (h : (k' == k) = false) :
    dictFind ((k', v) :: d) k = dictFind d k := by
  simp [dictFind, List.find?, h]

theorem pyGet_cons_ne (k k' : String) (v : PyVal) (d : Dict)
    (h : (k' == k) = false) :
    pyGet ((k', v) :: d) k = pyGet d k := by
  simp [pyGet, dictFind_cons_ne k k' v d h]

theorem pyGetD_cons_ne (k k' : String) (v : PyVal) (d : Dict) (default : PyVal)
    (h : (k' == k) = false) :
    pyGetD ((k', v) :: d) k default = pyGetD d k default := by
  simp [pyGetD, dictFind_cons_ne k k' v d h]

theorem countNet_nil : countNet [] = 0 := rfl

theorem countNet_cons (e : Event) (t : Trace) :
    countNet (e :: t) = countNet t + (if isSpawnNet e then 1 else 0) := by
  simp [countNet, List.countP_cons]

theorem countNet_append (t t' : Trace) :
    countNet (t ++ t') = countNet t + countNet t' := by
  simp [countNet, List.countP_append]

theorem applyListLoop_countNet (eng : Eng) (f : SDict → Option EngCall)
    (l : List SDict) :
    countNet (applyListLoop eng f l).1 = 0 := by
  induction l with
  | nil => rfl
  | cons x rest ih =>
    cases hfx : f x with
    | none => simp [applyListLoop, hfx, countNet_cons, ih, isSpawnNet]
    | some c =>
      cases heng : eng c with
      | ok => simp [applyListLoop, hfx, tryAdd, heng, countNet_cons, ih, isSpawnNet]
      | raise ex =>
        by_cases hex : ex.etype = ExcType.runtimeConfigError
        · simp [applyListLoop, hfx, tryAdd, heng, hex, countNet_cons, ih, isSpawnNet]
        · simp [applyListLoop, hfx, tryAdd, heng, hex, countNet_cons, isSpawnNet,
            countNet_nil]

theorem startSpeaker_countNet (eng : Eng) (s : Dict) :
    countNet (startSpeaker eng s).1 = 0 := by
  have hn := applyListLoop_countNet eng (callOf ListKind.neighbors)
    (asDList (pyGetD s "neighbors" (PyVal.dlist [])))
  have hv := applyListLoop_countNet eng (callOf ListKind.vrfs)
    (asDList (pyGetD s "vrfs" (PyVal.dlist [])))
  have hr := applyListLoop_countNet eng (callOf ListKind.routes)
    (asDList (pyGetD s "routes" (PyVal.dlist [])))
  rw [← addNeighborsLoop_eq] at hn
  rw [← addVrfsLoop_eq] at hv
  rw [← addRoutesLoop_eq] at hr
  unfold startSpeaker
  cases hn2 : (addNeighborsLoop eng (asDList (pyGetD s "neighbors" (PyVal.dlist [])))).2 with
  | some err =>
    simp [hn2, countNet_cons, hn, isSpawnNet]
  | none =>
    cases hv2 : (addVrfsLoop eng (asDList (pyGetD s "vrfs" (PyVal.dlist [])))).2 with
    | some err =>
      simp [hn2, hv2, countNet_cons, countNet_append, hn, hv, isSpawnNet]
    | none =>
      simp [hn2, hv2, countNet_cons, countNet_append, hn, hv, hr, isSpawnNet]

theorem bgpStep_countNet (eng : Eng) (ob : Option Dict) :
    countNet (bgpStep eng ob).1 = 0 := by
  cases ob with
  | none => rfl
  | some bgp => exact startSpeaker_countNet eng bgp

theorem sshStep_countNet (os : Option SDict) :
    countNet (sshStep os) = 0 := by
  cases os with
  | none => rfl
  | some cfg => rfl

/-- C3: during bootstrap each bulk list (neighbors, VRFs, routes) is
applied strictly in its original order; when the engine call for an
element raises `RuntimeConfigError` the failure is logged and every
subsequent element of the same list is still attempted; when it raises any
other error type, that error propagates and the remaining elements of the
list are not attempted. -/
theorem bulk_list_error_policy (k : ListKind) (eng : Eng) :
    (∀ l, (∀ x ∈ l, elementHandled eng k x = true) →
      attempted (loopOf k eng l).1 = l.filterMap (callOf k)
        ∧ loggedEx (loopOf k eng l).1 = expectedLogs eng (l.filterMap (callOf k))
        ∧ (loopOf k eng l).2 = none)
  ∧ (∀ pre post bad c ex,
      (∀ x ∈ pre, elementHandled eng k x = true) →
      callOf k bad = some c →
      eng c = EngOutcome.raise ex →
      (ex.etype == ExcType.runtimeConfigError) = false →
      attempted (loopOf k eng (pre ++ bad :: post)).1 = pre.filterMap (callOf k) ++ [c]
        ∧ (loopOf k eng (pre ++ bad :: post)).2 = some ex) := by
  constructor
  · intro l h
    rw [loopOf_eq]
    apply applyListLoop_all_handled
    intro x hx c hc
    have hh := h x hx
    unfold elementHandled at hh
    rw [hc] at hh
    exact hh
  · intro pre post bad c ex hpre hbad heng hex
    rw [loopOf_eq]
    apply applyListLoop_abort eng (callOf k) pre post bad c ex ?_ hbad heng hex
    intro x hx c0 hc0
    have hh := hpre x hx
    unfold elementHandled at hh
    rw [hc0] at hh
    exact hh

/-- Witness for C3: with a concrete engine, the neighbor list
valid-malformed-valid is attempted in full order with the one
`RuntimeConfigError` logged, and a route list aborts exactly at the EVPN
entry the engine rejects with a non-configuration error. -/
theorem bulk_list_error_policy_witness :
    (attempted (loopOf ListKind.neighbors engW nsW).1
        = nsW.filterMap (callOf ListKind.neighbors)
      ∧ loggedEx (loopOf ListKind.neighbors engW nsW).1
        = expectedLogs engW (nsW.filterMap (callOf ListKind.neighbors))
      ∧ (loopOf ListKind.neighbors engW nsW).2 = none)
  ∧ (attempted (loopOf ListKind.routes engW ([rW1] ++ rW2 :: [rW3])).1
        = [rW1].filterMap (callOf ListKind.routes) ++ [EngCall.evpn_prefix_add rW2]
      ∧ (loopOf ListKind.routes engW ([rW1] ++ rW2 :: [rW3])).2
        = some { etype := ExcType.otherException, desc := "engine defect" }) :=
  ⟨(bulk_list_error_policy ListKind.neighbors engW).1 nsW (by decide),
   (bulk_list_error_policy ListKind.routes engW).2 [rW1] [rW3] rW2
     (EngCall.evpn_prefix_add rW2)
     { etype := ExcType.otherException, desc := "engine defect" }
     (by decide) (by decide) rfl rfl⟩

/-- C4: a route spec containing a `prefix` key is applied via the engine's
`prefix_add` (even when `route_type` is also present — prefix handling
wins); otherwise one containing a `route_type` key is applied via
`evpn_prefix_add`; otherwise it is skipped with only a debug-level log,
invoking no engine call and raising no error. -/
theorem route_classification (eng : Eng) (r : SDict) (rest : List SDict) :
    (hasKey r "prefix" = true →
      (addRoutesLoop eng (r :: rest)).1.head?
        = some (Event.engCall (EngCall.prefix_add r)))
  ∧ (hasKey r "prefix" = false → hasKey r "route_type" = true →
      (addRoutesLoop eng (r :: rest)).1.head?
        = some (Event.engCall (EngCall.evpn_prefix_add r)))
  ∧ (hasKey r "prefix" = false → hasKey r "route_type" = false →
      addRoutesLoop eng (r :: rest) =
        (Event.debugSkip r :: (addRoutesLoop eng rest).1,
         (addRoutesLoop eng rest).2)) := by
  refine ⟨?_, ?_, ?_⟩
  · intro hp
    cases heng : eng (EngCall.prefix_add r) with
    | ok => simp [addRoutesLoop, hp, tryAdd, heng]
    | raise ex =>
      by_cases hex : ex.etype = ExcType.runtimeConfigError
      · simp [addRoutesLoop, hp, tryAdd, heng, hex]
      · simp [addRoutesLoop, hp, tryAdd, heng, hex]
  · intro hp ht
    cases heng : eng (EngCall.evpn_prefix_add r) with
    | ok => simp [addRoutesLoop, hp, ht, tryAdd, heng]
    | raise ex =>
      by_cases hex : ex.etype = ExcType.runtimeConfigError
      · simp [addRoutesLoop, hp, ht, tryAdd, heng, hex]
      · simp [addRoutesLoop, hp, ht, tryAdd, heng, hex]
  · intro hp ht
    simp [addRoutesLoop, hp, ht]

/-- Witness for C4 at the spec's test vectors: a `prefix` route goes to
`prefix_add`, a `route_type` route to `evpn_prefix_add`, the empty route
spec is skipped with a debug log and no error, and a route with both keys
goes to `prefix_add`. -/
theorem route_classification_witness :
    (addRoutesLoop engW (rW1 :: [])).1.head?
        = some (Event.engCall (EngCall.prefix_add rW1))
  ∧ (addRoutesLoop engW (rW2 :: [])).1.head?
        = some (Event.engCall (EngCall.evpn_prefix_add rW2))
  ∧ addRoutesLoop engW (rW3 :: []) =
      (Event.debugSkip rW3 :: (addRoutesLoop engW []).1, (addRoutesLoop engW []).2)
  ∧ (addRoutesLoop engW
        ([("prefix", PyScalar.str "10.0.0.0/24"),
          ("route_type", PyScalar.str "evpn")] :: [])).1.head?
        = some (Event.engCall (EngCall.prefix_add
            [("prefix", PyScalar.str "10.0.0.0/24"),
             ("route_type", PyScalar.str "evpn")])) :=
  ⟨(route_classification engW rW1 []).1 (by decide),
   (route_classification engW rW2 []).2.1 (by decide) (by decide),
   (route_classification engW rW3 []).2.2 (by decide) (by decide),
   (route_classification engW
      [("prefix", PyScalar.str "10.0.0.0/24"),
       ("route_type", PyScalar.str "evpn")] []).1 (by decide)⟩

/-- C1 (code bug): with `as_number` and `router_id` absent from the BGP
section, `_start_speaker` raises nothing — `settings.get(key)` returns
`None` instead of raising `KeyError`, so the `except KeyError` arm at
lines 148-150 is dead — and the engine is constructed with both required
fields bound to `None`, contradicting the claimed `BootstrapError` (and
the source's own comment that the speaker is not started when a minimum
required setting is missing). -/
theorem bootstrap_missing_fields_code_bug :
    (startSpeaker engOk []).2.2 = none
  ∧ (startSpeaker engOk []).2.1 = bgpSettingsOf []
  ∧ dictFind (bgpSettingsOf []) "as_number" = some (PyVal.scalar PyScalar.none)
  ∧ dictFind (bgpSettingsOf []) "router_id" = some (PyVal.scalar PyScalar.none)
  ∧ (startSpeaker engOk []).1 = [Event.constructSpeaker (bgpSettingsOf [])] :=
  ⟨rfl, rfl, by decide, by decide, rfl⟩

/-- C5: `load_config` raises an `ApplicationException` when the path is
empty or names no existing file; any failure during resolution is caught
and re-raised as an `ApplicationException` carrying the original message;
and a successful call returns exactly the resolved document (all-or-nothing,
never a partial document). -/
theorem load_config_all_or_nothing (fs : FileSystem) (p : String) :
    (p = "" ∨ fs.isfile p = false →
      load_config fs p = Except.error (appExc ("Invalid configuration file: " ++ p)))
  ∧ (∀ m, ¬ p = "" → fs.isfile p = true → fs.resolve p = Except.error m →
      load_config fs p = Except.error (appExc m))
  ∧ (∀ s, load_config fs p = Except.ok s → fs.resolve p = Except.ok s) := by
  refine ⟨?_, ?_, ?_⟩
  · intro h
    simp [load_config, h]
  · intro m hp hf hr
    simp [load_config, hp, hf, hr]
  · intro s h
    unfold load_config at h
    split at h
    · exact absurd h (by simp)
    · cases hr : fs.resolve p with
      | ok s0 =>
        rw [hr] at h
        simp at h
        rw [h]
      | error m =>
        rw [hr] at h
        exact absurd h (by simp)

/-- Witness for C5: the empty path and a missing file fail with an
`ApplicationException`; an existing but unresolvable file fails with an
`ApplicationException` carrying the resolver's message; and a successful
load returns the resolved module. -/
theorem load_config_all_or_nothing_witness :
    load_config fsW "" = Except.error (appExc ("Invalid configuration file: " ++ ""))
  ∧ load_config fsW "/no/such/file"
      = Except.error (appExc ("Invalid configuration file: " ++ "/no/such/file"))
  ∧ load_config fsBadW "/etc/ryu/broken.py"
      = Except.error (appExc "invalid syntax (broken.py, line 3)")
  ∧ fsW.resolve "/etc/ryu/bgp_conf.py" = Except.ok settingsW :=
  ⟨(load_config_all_or_nothing fsW "").1 (Or.inl rfl),
   (load_config_all_or_nothing fsW "/no/such/file").1 (Or.inr (by decide)),
   (load_config_all_or_nothing fsBadW "/etc/ryu/broken.py").2.1
     "invalid syntax (broken.py, line 3)" (by decide) (by decide) rfl,
   (load_config_all_or_nothing fsW "/etc/ryu/bgp_conf.py").2.2 settingsW rfl⟩

/-- C6: `validate_rpc_host` returns its input unchanged exactly when it is
a syntactically valid IPv4 or IPv6 literal, and otherwise raises an
`ApplicationException` whose description names the offending value; it is
a pure function with no other effect. -/
theorem validate_rpc_host_spec (ip : String) :
    (is_valid_ipv4 ip = true ∨ is_valid_ipv6 ip = true →
      validate_rpc_host ip = Except.ok ip)
  ∧ (is_valid_ipv4 ip = false → is_valid_ipv6 ip = false →
      validate_rpc_host ip
        = Except.error (appExc ("Invalid RPC ip address: " ++ ip))) := by
  constructor
  · intro h
    cases h with
    | inl h4 => simp [validate_rpc_host, h4]
    | inr h6 => simp [validate_rpc_host, h6]
  · intro h4 h6
    simp [validate_rpc_host, h4, h6]

/-- Witness for C6 at the spec's test vectors: a valid IPv4 literal and a
valid IPv6 literal are returned unchanged; `not-an-ip` fails with an
`ApplicationException` naming it. -/
theorem validate_rpc_host_spec_witness :
    validate_rpc_host "192.0.2.1" = Except.ok "192.0.2.1"
  ∧ validate_rpc_host "2001:db8::1" = Except.ok "2001:db8::1"
  ∧ validate_rpc_host "not-an-ip"
      = Except.error (appExc ("Invalid RPC ip address: " ++ "not-an-ip")) :=
  ⟨(validate_rpc_host_spec "192.0.2.1").1 (Or.inl (by decide)),
   (validate_rpc_host_spec "2001:db8::1").1 (Or.inr (by decide)),
   (validate_rpc_host_spec "not-an-ip").2 (by decide) (by decide)⟩

/-- C9 (implicit): the failures the spec distinguishes as
`ConfigurationError` (invalid config file, unparsable content, invalid
bind address) and `BootstrapError` (missing required BGP field) are all
raised as the single class `ApplicationException`, a declared subclass of
`BGPSException`; no distinct error classes separate them at this layer. -/
theorem application_exception_unified :
    (∀ ip e, validate_rpc_host ip = Except.error e →
      e.etype = ExcType.applicationException)
  ∧ (∀ fs p e, load_config fs p = Except.error e →
      e.etype = ExcType.applicationException)
  ∧ (∀ m, (bootstrapMissingFieldError m).etype = ExcType.applicationException)
  ∧ subclassOf ExcType.applicationException ExcType.bgpsException = true := by
  refine ⟨?_, ?_, fun m => rfl, rfl⟩
  · intro ip e h
    unfold validate_rpc_host at h
    split at h
    · simp only [Except.error.injEq] at h
      rw [← h]
      rfl
    · exact absurd h (by simp)
  · intro fs p e h
    unfold load_config at h
    split at h
    · simp only [Except.error.injEq] at h
      rw [← h]
      rfl
    · split at h
      · exact absurd h (by simp)
      · simp only [Except.error.injEq] at h
        rw [← h]
        rfl

/-- Witness for C9: a concrete invalid bind address, a concrete invalid
config path, and a concrete dead-branch bootstrap error all carry the
class `ApplicationException`. -/
theorem application_exception_unified_witness :
    (appExc ("Invalid RPC ip address: " ++ "not-an-ip")).etype
        = ExcType.applicationException
  ∧ (appExc ("Invalid configuration file: " ++ "")).etype
        = ExcType.applicationException
  ∧ (bootstrapMissingFieldError "as_number").etype
        = ExcType.applicationException :=
  ⟨application_exception_unified.1 "not-an-ip"
     (appExc ("Invalid RPC ip address: " ++ "not-an-ip")) rfl,
   application_exception_unified.2.1 fsW ""
     (appExc ("Invalid configuration file: " ++ "")) rfl,
   application_exception_unified.2.2.1 "as_number"⟩

/-- C7: `RyuBGPSpeaker.start` performs its steps in the fixed order —
load config (only when `config_file` is set), then BGP bootstrap (only
when the document has a BGP section), then the admin-shell spawn (only
when it has an SSH section), then the control-channel launch — and the
control-channel launch is performed exactly once. -/
theorem start_sequence_order (fs : FileSystem) (eng : Eng) (conf : Conf)
    (settings : Settings)
    (hcf : ¬ conf.config_file = "")
    (hload : load_config fs conf.config_file = Except.ok settings)
    (hboot : (bgpStep eng settings.BGP).2 = none)
    (hip : validate_rpc_host conf.rpc_host = Except.ok conf.rpc_host) :
    appStart fs eng conf =
      (Event.loadConfigEv conf.config_file ::
         ((bgpStep eng settings.BGP).1 ++ sshStep settings.SSH ++
           [Event.spawnNetController conf.rpc_host conf.rpc_port]),
       Except.ok (TaskHandle.netController conf.rpc_host conf.rpc_port))
  ∧ countNet (appStart fs eng conf).1 = 1 := by
  have hmain : appStart fs eng conf =
      (Event.loadConfigEv conf.config_file ::
         ((bgpStep eng settings.BGP).1 ++ sshStep settings.SSH ++
           [Event.spawnNetController conf.rpc_host conf.rpc_port]),
       Except.ok (TaskHandle.netController conf.rpc_host conf.rpc_port)) := by
    simp only [appStart, if_neg hcf, hload]
    rcases hbs : bgpStep eng settings.BGP with ⟨tb, eb⟩
    rw [hbs] at hboot
    simp at hboot
    subst hboot
    simp [rpcSpawn, hip]
  refine ⟨hmain, ?_⟩
  rw [hmain]
  simp [countNet_cons, countNet_append, countNet_nil, bgpStep_countNet,
    sshStep_countNet, isSpawnNet]

/-- Witness for C7: with a loadable document having neither a BGP nor an
SSH section, `start` loads the config and then launches the control
channel exactly once. -/
theorem start_sequence_order_witness :
    appStart fsEmptyW engOk confEmptyW =
      (Event.loadConfigEv confEmptyW.config_file ::
         ((bgpStep engOk settingsEmptyW.BGP).1 ++ sshStep settingsEmptyW.SSH ++
           [Event.spawnNetController confEmptyW.rpc_host confEmptyW.rpc_port]),
       Except.ok (TaskHandle.netController confEmptyW.rpc_host confEmptyW.rpc_port))
  ∧ countNet (appStart fsEmptyW engOk confEmptyW).1 = 1 :=
  start_sequence_order fsEmptyW engOk confEmptyW settingsEmptyW
    (by decide) rfl rfl rfl

/-- C2 counterexample: a loadable config whose BGP section has one
neighbor the engine rejects with an `ApplicationException`; the exception
raised inside `_start_speaker` propagates out of `start` uncaught and the
control-channel launch is never performed, refuting the claim that the
sequence continues to the control-channel launch. -/
theorem bootstrap_error_not_swallowed_cex :
    (appStart fsCex engBoom confCex).2
        = Except.error (appExc "neighbor_add engine failure")
  ∧ countNet (appStart fsCex engBoom confCex).1 = 0 :=
  ⟨rfl, rfl⟩

/-- C2 amended: `RyuBGPSpeaker.start` does not catch exceptions from
`_start_speaker`; whenever the bootstrap step raises (for example an
`ApplicationException` propagating from an engine call), the error
propagates out of `start` and the control-channel launch is not
performed. -/
theorem bootstrap_error_propagates (fs : FileSystem) (eng : Eng) (conf : Conf)
    (settings : Settings) (bgp : Dict) (ex : PyErr)
    (hcf : ¬ conf.config_file = "")
    (hload : load_config fs conf.config_file = Except.ok settings)
    (hbgp : settings.BGP = some bgp)
    (hfail : (startSpeaker eng bgp).2.2 = some ex) :
    (appStart fs eng conf).2 = Except.error ex
  ∧ countNet (appStart fs eng conf).1 = 0 := by
  have hb : bgpStep eng settings.BGP = ((startSpeaker eng bgp).1, some ex) := by
    rw [hbgp]
    simp only [bgpStep]
    rw [hfail]
  have hmain : appStart fs eng conf =
      (Event.loadConfigEv conf.config_file :: (startSpeaker eng bgp).1,
       Except.error ex) := by
    simp only [appStart, if_neg hcf, hload, hb]
  rw [hmain]
  exact ⟨rfl, by simp [countNet_cons, startSpeaker_countNet, isSpawnNet]⟩

/-- Witness for the amended C2 at concrete inputs: the propagated engine
exception surfaces from `start` and no control-channel launch occurs. -/
theorem bootstrap_error_propagates_witness :
    (appStart fsCex engBoom confCex).2
        = Except.error (appExc "neighbor_add engine failure")
  ∧ countNet (appStart fsCex engBoom confCex).1 = 0 :=
  bootstrap_error_propagates fsCex engBoom confCex settingsCex bgpCex
    (appExc "neighbor_add engine failure") (by decide) rfl rfl rfl

/-- C8: each optional setting (`server_port`, `refresh_stalepath_time`,
`refresh_max_eor_time`, `label_range`) is taken from the BGP section when
its key is present and otherwise resolved to its named default constant,
and the engine is constructed (first event of `_start_speaker`) with
exactly these resolved settings. -/
theorem optional_settings_defaulting (settings : Dict) :
    ((dictFind settings BGP_SERVER_PORT = none →
        dictFind (bgpSettingsOf settings) BGP_SERVER_PORT
          = some DEFAULT_BGP_SERVER_PORT)
      ∧ (∀ v, dictFind settings BGP_SERVER_PORT = some v →
        dictFind (bgpSettingsOf settings) BGP_SERVER_PORT = some v))
  ∧ ((dictFind settings REFRESH_STALEPATH_TIME = none →
        dictFind (bgpSettingsOf settings) REFRESH_STALEPATH_TIME
          = some DEFAULT_REFRESH_STALEPATH_TIME)
      ∧ (∀ v, dictFind settings REFRESH_STALEPATH_TIME = some v →
        dictFind (bgpSettingsOf settings) REFRESH_STALEPATH_TIME = some v))
  ∧ ((dictFind settings REFRESH_MAX_EOR_TIME = none →
        dictFind (bgpSettingsOf settings) REFRESH_MAX_EOR_TIME
          = some DEFAULT_REFRESH_MAX_EOR_TIME)
      ∧ (∀ v, dictFind settings REFRESH_MAX_EOR_TIME = some v →
        dictFind (bgpSettingsOf settings) REFRESH_MAX_EOR_TIME = some v))
  ∧ ((dictFind settings LABEL_RANGE = none →
        dictFind (bgpSettingsOf settings) LABEL_RANGE = some DEFAULT_LABEL_RANGE)
      ∧ (∀ v, dictFind settings LABEL_RANGE = some v →
        dictFind (bgpSettingsOf settings) LABEL_RANGE = some v))
  ∧ (∀ eng, (startSpeaker eng settings).1.head?
        = some (Event.constructSpeaker (bgpSettingsOf settings))) := by
  have h1 : dictFind (bgpSettingsOf settings) BGP_SERVER_PORT
      = some (pyGetD settings BGP_SERVER_PORT DEFAULT_BGP_SERVER_PORT) := by
    unfold bgpSettingsOf
    rw [dictFind_cons_ne _ _ _ _ (by decide), dictFind_cons_ne _ _ _ _ (by decide),
      dictFind_cons_eq]
  have h2 : dictFind (bgpSettingsOf settings) REFRESH_STALEPATH_TIME
      = some (pyGetD settings REFRESH_STALEPATH_TIME DEFAULT_REFRESH_STALEPATH_TIME) := by
    unfold bgpSettingsOf
    rw [dictFind_cons_ne _ _ _ _ (by decide), dictFind_cons_ne _ _ _ _ (by decide),
      dictFind_cons_ne _ _ _ _ (by decide), dictFind_cons_eq]
  have h3 : dictFind (bgpSettingsOf settings) REFRESH_MAX_EOR_TIME
      = some (pyGetD settings REFRESH_MAX_EOR_TIME DEFAULT_REFRESH_MAX_EOR_TIME) := by
    unfold bgpSettingsOf
    rw [dictFind_cons_ne _ _ _ _ (by decide), dictFind_cons_ne _ _ _ _ (by decide),
      dictFind_cons_ne _ _ _ _ (by decide), dictFind_cons_ne _ _ _ _ (by decide),
      dictFind_cons_eq]
  have h4 : dictFind (bgpSettingsOf settings) LABEL_RANGE
      = some (pyGetD settings LABEL_RANGE DEFAULT_LABEL_RANGE) := by
    unfold bgpSettingsOf
    rw [dictFind_cons_ne _ _ _ _ (by decide), dictFind_cons_ne _ _ _ _ (by decide),
      dictFind_cons_ne _ _ _ _ (by decide), dictFind_cons_ne _ _ _ _ (by decide),
      dictFind_cons_ne _ _ _ _ (by decide), dictFind_cons_eq]
  refine ⟨⟨?_, ?_⟩, ⟨?_, ?_⟩, ⟨?_, ?_⟩, ⟨?_, ?_⟩, ?_⟩
  · intro h
    rw [h1]
    simp [pyGetD, h]
  · intro v h
    rw [h1]
    simp [pyGetD, h]
  · intro h
    rw [h2]
    simp [pyGetD, h]
  · intro v h
    rw [h2]
    simp [pyGetD, h]
  · intro h
    rw [h3]
    simp [pyGetD, h]
  · intro v h
    rw [h3]
    simp [pyGetD, h]
  · intro h
    rw [h4]
    simp [pyGetD, h]
  · intro v h
    rw [h4]
    simp [pyGetD, h]
  · intro eng
    simp only [startSpeaker]
    split
    · rfl
    · split
      · rfl
      · rfl

/-- Witness for C8: with every optional key present the section's values
appear in the constructor settings; with every optional key absent the
named defaults appear; and the engine-construction event carries exactly
those settings. -/
theorem optional_settings_defaulting_witness :
    dictFind (bgpSettingsOf s8b) BGP_SERVER_PORT = some DEFAULT_BGP_SERVER_PORT
  ∧ dictFind (bgpSettingsOf s8a) BGP_SERVER_PORT
      = some (PyVal.scalar (PyScalar.int 1790))
  ∧ dictFind (bgpSettingsOf s8b) REFRESH_STALEPATH_TIME
      = some DEFAULT_REFRESH_STALEPATH_TIME
  ∧ dictFind (bgpSettingsOf s8a) REFRESH_STALEPATH_TIME
      = some (PyVal.scalar (PyScalar.int 10))
  ∧ dictFind (bgpSettingsOf s8b) REFRESH_MAX_EOR_TIME
      = some DEFAULT_REFRESH_MAX_EOR_TIME
  ∧ dictFind (bgpSettingsOf s8a) REFRESH_MAX_EOR_TIME
      = some (PyVal.scalar (PyScalar.int 20))
  ∧ dictFind (bgpSettingsOf s8b) LABEL_RANGE = some DEFAULT_LABEL_RANGE
  ∧ dictFind (bgpSettingsOf s8a) LABEL_RANGE
      = some (PyVal.scalar (PyScalar.pair 500 1000))
  ∧ (startSpeaker engOk s8a).1.head?
      = some (Event.constructSpeaker (bgpSettingsOf s8a)) :=
  ⟨(optional_settings_defaulting s8b).1.1 (by decide),
   (optional_settings_defaulting s8a).1.2 (PyVal.scalar (PyScalar.int 1790)) (by decide),
   (optional_settings_defaulting s8b).2.1.1 (by decide),
   (optional_settings_defaulting s8a).2.1.2 (PyVal.scalar (PyScalar.int 10)) (by decide),
   (optional_settings_defaulting s8b).2.2.1.1 (by decide),
   (optional_settings_defaulting s8a).2.2.1.2 (PyVal.scalar (PyScalar.int 20)) (by decide),
   (optional_settings_defaulting s8b).2.2.2.1.1 (by decide),
   (optional_settings_defaulting s8a).2.2.2.1.2
     (PyVal.scalar (PyScalar.pair 500 1000)) (by decide),
   (optional_settings_defaulting s8a).2.2.2.2 engOk⟩

/-- C10 (implicit): the engine constructor receives exactly the six keys
`as_number`, `router_id`, `server_port`, `refresh_stalepath_time`,
`refresh_max_eor_time`, `label_range`; any other key in the BGP section
(such as `neighbors`, `vrfs`, `routes`) is excluded from the constructor
arguments and does not affect the constructed settings. -/
theorem constructor_keys_exact (settings : Dict) :
    (bgpSettingsOf settings).map Prod.fst
      = ["as_number", "router_id", BGP_SERVER_PORT, REFRESH_STALEPATH_TIME,
         REFRESH_MAX_EOR_TIME, LABEL_RANGE]
  ∧ (∀ k v, (k == LOCAL_AS) = false → (k == ROUTER_ID) = false →
      (k == BGP_SERVER_PORT) = false → (k == REFRESH_STALEPATH_TIME) = false →
      (k == REFRESH_MAX_EOR_TIME) = false → (k == LABEL_RANGE) = false →
      bgpSettingsOf ((k, v) :: settings) = bgpSettingsOf settings) := by
  constructor
  · rfl
  · intro k v h1 h2 h3 h4 h5 h6
    unfold bgpSettingsOf
    rw [pyGet_cons_ne _ _ _ _ h1, pyGet_cons_ne _ _ _ _ h2,
      pyGetD_cons_ne _ _ _ _ _ h3, pyGetD_cons_ne _ _ _ _ _ h4,
      pyGetD_cons_ne _ _ _ _ _ h5, pyGetD_cons_ne _ _ _ _ _ h6]

/-- Witness for C10: the constructor keys of a minimal section are the six
expected ones, and adding a `neighbors` entry to the section leaves the
constructor settings unchanged. -/
theorem constructor_keys_exact_witness :
    (bgpSettingsOf s10).map Prod.fst
      = ["as_number", "router_id", BGP_SERVER_PORT, REFRESH_STALEPATH_TIME,
         REFRESH_MAX_EOR_TIME, LABEL_RANGE]
  ∧ bgpSettingsOf
        (("neighbors", PyVal.dlist [[("ip", PyScalar.str "192.0.2.2")]]) :: s10)
      = bgpSettingsOf s10 :=
  ⟨(constructor_keys_exact s10).1,
   (constructor_keys_exact s10).2 "neighbors"
     (PyVal.dlist [[("ip", PyScalar.str "192.0.2.2")]])
     (by decide) (by decide) (by decide) (by decide) (by decide) (by decide)⟩
